import Mathlib

/-!
Shallow embedding of the langgraph-mcp-airbnb orchestrator (src/graph.py,
src/tools.py, src/main.py) and proofs about it.

Modelling conventions:
* Python strings are Lean `String`s; Python's `str.lower` is modelled by
  `strLower` (ASCII lowering, which agrees with Python on every string the
  program compares); Python's `pat in s` substring test is `pyIn pat s`.
* The `UserPreferences` TypedDict produced by the structured-output LLM call
  may carry missing/None fields, so each field is `Option`-typed; Python
  truthiness of the stored values (`all(prefs.values())`) is `truthyStr` /
  `truthyInt` (None, the empty string and 0 are falsy).
* Python floats (`price`, `rating`) are carried as their rendered decimal
  strings: the program performs no arithmetic on them, it only interpolates
  them into messages.
* LLM extraction calls are inputs of the embedded functions: a successful
  structured extraction is `some v`, an extraction that raises is `none`
  (the `try`/`except` in `decide_next_step` is the `Option` match).
* Python list indexing `l[i]` (negative wrap-around, IndexError out of
  range) is `pyGetElem l i`.
* The langgraph node names and edge maps of `workflow` are embedded as
  `GraphNode`, `entry_point`, `gup_edge_map` / `after_get_user_preferences`
  and `after_create_calendar_event`.
-/

namespace AirbnbAgent

/-- ASCII lowercase of one character; models Python `str.lower` on the ASCII
strings this program compares. -/
def asciiLower (c : Char) : Char :=
  if 'A' ≤ c ∧ c ≤ 'Z' then Char.ofNat (c.toNat + 32) else c

/-- Lowercase a string character-wise, modelling Python `str.lower`. -/
def strLower (s : String) : String :=
  String.mk (s.data.map asciiLower)

/-- Does the second list occur as a prefix of the first? -/
def hasPrefixCL : List Char → List Char → Bool
  | _, [] => true
  | [], _ :: _ => false
  | c :: cs, p :: ps => c == p && hasPrefixCL cs ps

/-- Does `pat` occur as a contiguous sublist of the first argument?
Models Python's `pat in s` on the character lists. -/
def containsSub : List Char → List Char → Bool
  | [], pat => pat.isEmpty
  | c :: cs, pat => hasPrefixCL (c :: cs) pat || containsSub cs pat

/-- Python's substring test `pat in s`. -/
def pyIn (pat s : String) : Bool :=
  containsSub s.data pat.data

/-- Python list indexing `l[i]`: non-negative indices from the front,
negative indices wrap from the back, anything else raises IndexError
(modelled as `none`). -/
def pyGetElem {α : Type} (l : List α) (i : Int) : Option α :=
  if 0 ≤ i then l.get? i.toNat
  else if 0 ≤ i + l.length then l.get? (i + l.length).toNat
  else none

/-- The `UserPreferences` TypedDict of src/graph.py (city, date_from,
date_to, adults, children). The structured-output call can leave any field
missing or None, hence the `Option`s. -/
structure UserPreferences where
  city : Option String
  date_from : Option String
  date_to : Option String
  adults : Option Int
  children : Option Int
deriving DecidableEq

/-- The `AirbnbSearchResult` TypedDict of src/graph.py. `price` and
`rating` are Python floats carried as their rendered decimal strings (no
arithmetic is ever performed on them). -/
structure AirbnbSearchResult where
  name : String
  price : String
  rating : String
  url : String
deriving DecidableEq

/-- Python truthiness of an optional string value: None and "" are falsy. -/
def truthyStr : Option String → Bool
  | none => false
  | some s => !(s == "")

/-- Python truthiness of an optional integer value: None and 0 are falsy. -/
def truthyInt : Option Int → Bool
  | none => false
  | some n => !(n == 0)

/-- Embedding of `all(state["user_preferences"].values())` from `should_search`
(src/graph.py line 160): every one of the five stored values is truthy. -/
def prefs_all_truthy (p : UserPreferences) : Bool :=
  truthyStr p.city && truthyStr p.date_from && truthyStr p.date_to &&
    truthyInt p.adults && truthyInt p.children

/-- Embedding of `should_search` (src/graph.py lines 156-162): returns "search" when
`state.get("user_preferences")` is set and all its values are truthy,
otherwise "ask_for_info". -/
def should_search : Option UserPreferences → String
  | some p => if prefs_all_truthy p then "search" else "ask_for_info"
  | none => "ask_for_info"

/-- The completeness invariant stated by spec.md §3, written from the
spec's words for comparison with the code: city, date_from, date_to and
adults are all present (set to a usable, non-empty value) and adults ≥ 1;
children is not required. -/
def spec_complete (p : UserPreferences) : Bool :=
  truthyStr p.city && truthyStr p.date_from && truthyStr p.date_to &&
    (match p.adults with
     | none => false
     | some n => decide (1 ≤ n))

/-- Embedding of `get_user_preferences` (src/graph.py lines 57-78), restricted to the
state field it updates: the node runs the extraction chain on the last
message only and stores the fresh extraction as the whole
`user_preferences` record; the previously accumulated record
(`state_user_preferences`) is not consulted. -/
def get_user_preferences (state_user_preferences : Option UserPreferences)
    (extraction : UserPreferences) : Option UserPreferences :=
  some extraction

/-- Modelled from the spec: field-level merge semantics of §4.1/§9 — only
overwrite a field of the accumulated record if the new extraction yields a
non-empty (truthy) value for it. Stated for comparison with
`get_user_preferences`; this merge does not appear in src/. -/
def mergePreferences (old : Option UserPreferences)
    (extraction : UserPreferences) : UserPreferences :=
  match old with
  | none => extraction
  | some o =>
    { city := if truthyStr extraction.city then extraction.city else o.city
      date_from := if truthyStr extraction.date_from then extraction.date_from else o.date_from
      date_to := if truthyStr extraction.date_to then extraction.date_to else o.date_to
      adults := if truthyInt extraction.adults then extraction.adults else o.adults
      children := if truthyInt extraction.children then extraction.children else o.children }

/-- One rendered listing line of `present_choices` (src/graph.py line 99):
the Python f-string shows the 1-based position `pos`, the name, the
nightly price and the rating. In the source `pos` is `i+1` for the
enumeration index `i`. -/
def renderLine (pos : Nat) (r : AirbnbSearchResult) : String :=
  toString pos ++ ". " ++ r.name ++ " - $" ++ r.price ++ "/night, Rating: " ++
    r.rating ++ "\n"

/-- Embedding of `present_choices` (src/graph.py lines 92-101): starts from the fixed
header and appends one line per entry of `search_results[:3]`, in
enumeration order. -/
def present_choices (search_results : List AirbnbSearchResult) : String :=
  ((search_results.take 3).enum).foldl
    (fun acc p => acc ++ renderLine (p.1 + 1) p.2)
    "Here are the top 3 Airbnb listings I found:\n\n"

/-- Rendering of a listing sequence starting at 1-based position `pos`:
one `renderLine` per entry, in the order of the list. Used to state what
`present_choices` produces. -/
def renderFrom (pos : Nat) : List AirbnbSearchResult → String
  | [] => ""
  | r :: rs => renderLine pos r ++ renderFrom (pos + 1) rs

/-- Outcome of `decide_next_step` (src/graph.py lines 170-200): the
returned route, with the `state["chosen_airbnb"]` assignment of the
successful branch carried on the `book` constructor. -/
inductive NextStep where
  | book (chosen : AirbnbSearchResult)
  | refine_search
  | ending
deriving DecidableEq

/-- The `except` branch of `decide_next_step` (src/graph.py lines
197-200): keyword fallback on the lowered last message. -/
def choice_fallback (last_message : String) : NextStep :=
  if pyIn "more" (strLower last_message) || pyIn "different" (strLower last_message) then
    NextStep.refine_search
  else
    NextStep.ending

/-- Embedding of `decide_next_step` (src/graph.py lines 170-200). `extraction` is the
result of the structured `Choice` call (`none` when it raises); on
success the code indexes `state["search_results"][user_choice.choice - 1]`
with Python semantics, books that entry, and any exception (including
IndexError) lands in the keyword fallback. -/
def decide_next_step (extraction : Option Int)
    (search_results : List AirbnbSearchResult)
    (last_message : String) : NextStep :=
  match extraction with
  | some c =>
    match pyGetElem search_results (c - 1) with
    | some r => NextStep.book r
    | none => choice_fallback last_message
  | none => choice_fallback last_message

/-- Embedding of `should_create_calendar_event` (src/graph.py lines 202-209): route
"create_event" when the lowered last message contains "yes" or "sure"
as a substring, otherwise "end". -/
def should_create_calendar_event (last_message : String) : String :=
  if pyIn "yes" (strLower last_message) || pyIn "sure" (strLower last_message) then
    "create_event"
  else
    "end"

/-- The argument record of the `create_google_calendar_event` tool call
(src/tools.py lines 51-52). -/
structure CalendarCall where
  summary : String
  start_time : String
  end_time : String
  description : String
deriving DecidableEq

/-- Embedding of `create_calendar_event_node` (src/graph.py lines 121-139), restricted
to the tool-call arguments it builds: `preferences['date_from']` /
`preferences['date_to']` raise KeyError when absent (modelled as `none`),
otherwise the four f-string arguments are assembled exactly as in the
source. -/
def create_calendar_event_node (preferences : UserPreferences)
    (chosen_airbnb : AirbnbSearchResult) : Option CalendarCall :=
  match preferences.date_from, preferences.date_to with
  | some df, some dt =>
    some { summary := "Airbnb Booking: " ++ chosen_airbnb.name
           start_time := df ++ "T09:00:00"
           end_time := dt ++ "T11:00:00"
           description := "Booking confirmation for " ++ chosen_airbnb.name ++ "." }
  | _, _ => none

/-- First mock listing of `search_airbnb` (src/tools.py line 26). -/
def mock_listing1 : AirbnbSearchResult :=
  { name := "Cozy Apartment in the City Center", price := "120.0",
    rating := "4.8", url := "https://www.airbnb.com/rooms/1" }

/-- Second mock listing of `search_airbnb` (src/tools.py line 27). -/
def mock_listing2 : AirbnbSearchResult :=
  { name := "Spacious Loft with a View", price := "200.0",
    rating := "4.9", url := "https://www.airbnb.com/rooms/2" }

/-- Third mock listing of `search_airbnb` (src/tools.py line 28). -/
def mock_listing3 : AirbnbSearchResult :=
  { name := "Charming Cottage near the Park", price := "95.0",
    rating := "4.7", url := "https://www.airbnb.com/rooms/3" }

/-- Embedding of `search_airbnb` (src/tools.py lines 7-29): ignores every argument and
returns the fixed three mock listings (the `print` side effect is not part
of the returned value). -/
def search_airbnb (city date_from date_to : String) (adults children : Int) :
    List AirbnbSearchResult :=
  [mock_listing1, mock_listing2, mock_listing3]

/-- The nodes of the compiled langgraph workflow (src/graph.py lines
142-231), plus the distinguished END vertex. -/
inductive GraphNode where
  | getUserPreferences
  | searchForAirbnbs
  | presentChoices
  | bookAirbnb
  | createCalendarEvent
  | END
deriving DecidableEq

/-- Embedding of `workflow.set_entry_point("get_user_preferences")` (src/graph.py
line 152). -/
def entry_point : GraphNode :=
  GraphNode.getUserPreferences

/-- The conditional-edge map attached to `get_user_preferences`
(src/graph.py lines 212-216): route "search" goes to the search node,
route "ask_for_info" goes to END; any other route name is unknown to
langgraph (`none`). -/
def gup_edge_map (route : String) : Option GraphNode :=
  if route == "search" then some GraphNode.searchForAirbnbs
  else if route == "ask_for_info" then some GraphNode.END
  else none

/-- Successor of the `get_user_preferences` node: the edge map applied to
the `should_search` route. -/
def after_get_user_preferences (prefs : Option UserPreferences) : Option GraphNode :=
  gup_edge_map (should_search prefs)

/-- Embedding of `workflow.add_edge("create_calendar_event", END)` (src/graph.py
line 227): the unconditional successor of the scheduling node. -/
def after_create_calendar_event : GraphNode :=
  GraphNode.END

/-- Predicate of "missing at least one required field" (spec.md §8): one of
city, date_from, date_to, adults is absent from the record. -/
def requiredFieldMissing (p : UserPreferences) : Prop :=
  p.city = none ∨ p.date_from = none ∨ p.date_to = none ∨ p.adults = none

/-- Concrete preference record for C1: complete in the sense of spec.md §3
(city, both dates, two adults) with zero children. -/
def c1_prefs : UserPreferences :=
  { city := some "Paris", date_from := some "2026-03-01",
    date_to := some "2026-03-05", adults := some 2, children := some 0 }

/-- Concrete accumulated record for C3 (all required fields already set). -/
def c3_old : UserPreferences :=
  { city := some "Paris", date_from := some "2026-03-01",
    date_to := some "2026-03-05", adults := some 2, children := some 1 }

/-- Concrete empty re-extraction for C3: the extractor returned no field. -/
def c3_empty : UserPreferences :=
  { city := none, date_from := none, date_to := none,
    adults := none, children := none }

/-- Concrete incomplete record for C5: city missing, everything else set. -/
def c5_prefs : UserPreferences :=
  { city := none, date_from := some "2026-03-01",
    date_to := some "2026-03-05", adults := some 2, children := some 1 }

/-- Concrete complete preferences used to instantiate C8. -/
def c8_prefs : UserPreferences :=
  { city := some "Paris", date_from := some "2026-03-01",
    date_to := some "2026-03-05", adults := some 2, children := some 0 }

/-- The calendar call `create_calendar_event_node` builds from `c8_prefs`
and `mock_listing1`. -/
def c8_call : CalendarCall :=
  { summary := "Airbnb Booking: Cozy Apartment in the City Center"
    start_time := "2026-03-01T09:00:00"
    end_time := "2026-03-05T11:00:00"
    description := "Booking confirmation for Cozy Apartment in the City Center." }

/-- C1: on `c1_prefs` — city, both dates and adults = 2 set, children = 0,
hence complete in the sense of spec.md §3 — `should_search` returns
"ask_for_info", not "search": Python truthiness of `children = 0` makes
`all(prefs.values())` false, so the CollectingPreferences → Searching
transition does not fire on a record the spec calls complete. -/
theorem c1_children_zero_blocks_search :
    spec_complete c1_prefs = true ∧
    should_search (some c1_prefs) = "ask_for_info" ∧
    should_search (some c1_prefs) ≠ "search" := by
  refine ⟨by decide, by decide, by decide⟩

/-- C2 counterexample: on an empty result list `present_choices` emits
exactly the fixed header; the (case-insensitive) output does not contain
"no listings found", so the claimed message is not emitted. -/
theorem c2_no_message_counterexample :
    pyIn "no listings found" (strLower (present_choices [])) = false ∧
    present_choices [] = "Here are the top 3 Airbnb listings I found:\n\n" := by
  refine ⟨by decide, by decide⟩

/-- C2 amended: on zero search results `present_choices` renders no
listing entries and does not crash — its output is exactly the generic
header "Here are the top 3 Airbnb listings I found:" — but no
"no listings found" message is produced. -/
theorem c2_empty_renders_header_only :
    present_choices [] = "Here are the top 3 Airbnb listings I found:\n\n" := by
  decide

/-- C3 counterexample: re-entering preference collection with an
accumulated record (`c3_old`, city "Paris" set) and an extraction that
returned no field (`c3_empty`) stores the empty extraction wholesale: the
stored city is `none` although the old record had it set, i.e. the record
is reset and set fields are overwritten with empty values. The spec's
field-level merge (`mergePreferences`) would instead have kept `c3_old`. -/
theorem c3_overwrite_counterexample :
    get_user_preferences (some c3_old) c3_empty = some c3_empty ∧
    c3_empty.city = none ∧
    c3_old.city = some "Paris" ∧
    mergePreferences (some c3_old) c3_empty = c3_old := by
  refine ⟨rfl, rfl, rfl, by decide⟩

/-- C3 amended: `get_user_preferences` replaces the accumulated
PreferenceRecord wholesale with the fresh extraction from the last
message; fields already set are not preserved and no field-level merge
is performed. -/
theorem c3_wholesale_replacement (old : Option UserPreferences)
    (extraction : UserPreferences) :
    get_user_preferences old extraction = some extraction := by
  rfl

/-- C4: with the three mock listings presented, an extracted choice of 0
is not treated as an invalid choice: Python indexing
`search_results[0 - 1]` wraps around and `decide_next_step` books the
last listing; likewise a choice of -1 books the second listing. -/
theorem c4_zero_choice_books_last :
    decide_next_step (some 0) [mock_listing1, mock_listing2, mock_listing3]
        "I will take option 0" = NextStep.book mock_listing3 ∧
    decide_next_step (some (-1)) [mock_listing1, mock_listing2, mock_listing3]
        "option -1 please" = NextStep.book mock_listing2 := by
  refine ⟨by decide, by decide⟩

/-- C5 counterexample: on the concrete record `c5_prefs`, which is missing
the required city, the successor of the `get_user_preferences` node is the
graph's END vertex — the run does move to a terminal vertex for the turn
rather than remaining in the collecting node. -/
theorem c5_routes_to_end_counterexample :
    after_get_user_preferences (some c5_prefs) = some GraphNode.END ∧
    GraphNode.END ≠ GraphNode.getUserPreferences := by
  refine ⟨by decide, by decide⟩

/-- C5 amended: for every PreferenceRecord missing at least one required
field, `should_search` routes "ask_for_info", the search node is not the
successor of `get_user_preferences` (so the provider's search operation is
not invoked on that turn); the graph run instead ends at END for the turn,
and the next turn re-enters at the entry point `get_user_preferences`. -/
theorem c5_missing_field_no_search (p : UserPreferences)
    (h : requiredFieldMissing p) :
    should_search (some p) = "ask_for_info" ∧
    after_get_user_preferences (some p) = some GraphNode.END ∧
    after_get_user_preferences (some p) ≠ some GraphNode.searchForAirbnbs ∧
    entry_point = GraphNode.getUserPreferences := by
  have hfalse : prefs_all_truthy p = false := by
    rcases h with h | h | h | h <;>
      simp [prefs_all_truthy, truthyStr, truthyInt, h]
  have hroute : should_search (some p) = "ask_for_info" := by
    simp [should_search, hfalse]
  have hsucc : after_get_user_preferences (some p) = some GraphNode.END := by
    simp only [after_get_user_preferences, hroute]
    decide
  refine ⟨hroute, hsucc, ?_, rfl⟩
  rw [hsucc]
  decide

/-- C5 witness: the amended statement instantiated at the concrete record
`c5_prefs`, whose city field is absent. -/
theorem c5_missing_field_no_search_witness :
    should_search (some c5_prefs) = "ask_for_info" ∧
    after_get_user_preferences (some c5_prefs) = some GraphNode.END ∧
    after_get_user_preferences (some c5_prefs) ≠ some GraphNode.searchForAirbnbs ∧
    entry_point = GraphNode.getUserPreferences :=
  c5_missing_field_no_search c5_prefs (Or.inl rfl)

/-- C6: when the structured Choice extraction raises (extraction `none`),
`decide_next_step` is exactly the keyword fallback: it always returns
(never raises, being a total function) and the result is `refine_search`
precisely when the lowered utterance contains "more" or "different" as a
substring, and `ending` otherwise. -/
theorem c6_extraction_failure_fallback
    (search_results : List AirbnbSearchResult) (last_message : String) :
    decide_next_step none search_results last_message = choice_fallback last_message ∧
    (decide_next_step none search_results last_message = NextStep.refine_search ∨
      decide_next_step none search_results last_message = NextStep.ending) ∧
    (decide_next_step none search_results last_message = NextStep.refine_search ↔
      (pyIn "more" (strLower last_message) = true ∨
        pyIn "different" (strLower last_message) = true)) := by
  have mem : choice_fallback last_message = NextStep.refine_search ∨
      choice_fallback last_message = NextStep.ending := by
    unfold choice_fallback
    split
    · exact Or.inl rfl
    · exact Or.inr rfl
  have key : choice_fallback last_message = NextStep.refine_search ↔
      (pyIn "more" (strLower last_message) = true ∨
        pyIn "different" (strLower last_message) = true) := by
    unfold choice_fallback
    cases hm : pyIn "more" (strLower last_message) <;>
      cases hd : pyIn "different" (strLower last_message) <;>
        simp [hm, hd]
  exact ⟨rfl, mem, key⟩

/-- C9: the bundled `search_airbnb` returns the same fixed sequence of
exactly 3 listings for every well-typed input — its result is independent
of all five arguments and never empty. -/
theorem c9_search_constant (ca dfa dta cb dfb dtb : String)
    (aa cha ab chb : Int) :
    search_airbnb ca dfa dta aa cha = search_airbnb cb dfb dtb ab chb ∧
    (search_airbnb ca dfa dta aa cha).length = 3 ∧
    search_airbnb ca dfa dta aa cha ≠ [] := by
  refine ⟨rfl, rfl, by simp [search_airbnb]⟩

/-- C10: `should_create_calendar_event` routes "create_event" exactly when
the lowered utterance contains "yes" or "sure" as a substring and "end"
exactly otherwise; in particular "not sure" and "yesterday" (which embed
those tokens in a negation or a longer word) route "create_event". -/
theorem c10_confirmation_substring :
    (∀ msg : String, should_create_calendar_event msg = "create_event" ↔
      (pyIn "yes" (strLower msg) = true ∨ pyIn "sure" (strLower msg) = true)) ∧
    (∀ msg : String, should_create_calendar_event msg = "end" ↔
      ¬(pyIn "yes" (strLower msg) = true ∨ pyIn "sure" (strLower msg) = true)) ∧
    should_create_calendar_event "not sure" = "create_event" ∧
    should_create_calendar_event "yesterday" = "create_event" := by
  refine ⟨?_, ?_, by decide, by decide⟩
  · intro msg
    unfold should_create_calendar_event
    cases hy : pyIn "yes" (strLower msg) <;>
      cases hs : pyIn "sure" (strLower msg) <;>
        simp [hy, hs]
  · intro msg
    unfold should_create_calendar_event
    cases hy : pyIn "yes" (strLower msg) <;>
      cases hs : pyIn "sure" (strLower msg) <;>
        simp [hy, hs]

theorem containsSub_nil_pat : ∀ l : List Char, containsSub l [] = true
  | [] => rfl
  | _ :: _ => rfl

theorem hasPrefixCL_append (pat rest : List Char) :
    hasPrefixCL (pat ++ rest) pat = true := by
  induction pat with
  | nil => cases rest <;> rfl
  | cons p ps ih => simp [hasPrefixCL, ih]

theorem containsSub_append_left :
    ∀ pre pat rest : List Char, containsSub (pre ++ (pat ++ rest)) pat = true := by
  intro pre
  induction pre with
  | nil =>
    intro pat rest
    cases pat with
    | nil => exact containsSub_nil_pat rest
    | cons p ps =>
      show containsSub (p :: (ps ++ rest)) (p :: ps) = true
      simp only [containsSub]
      have h := hasPrefixCL_append (p :: ps) rest
      simp only [List.cons_append] at h
      rw [h]
      rfl
  | cons c cs ih =>
    intro pat rest
    have step : containsSub ((c :: cs) ++ (pat ++ rest)) pat
        = (hasPrefixCL ((c :: cs) ++ (pat ++ rest)) pat ||
            containsSub (cs ++ (pat ++ rest)) pat) := rfl
    rw [step, ih pat rest]
    simp

theorem pyIn_append_right (pre pat : String) : pyIn pat (pre ++ pat) = true := by
  unfold pyIn
  rw [String.data_append]
  have h := containsSub_append_left pre.data pat.data []
  simpa using h

theorem pyIn_append_mid (pre pat post : String) :
    pyIn pat (pre ++ pat ++ post) = true := by
  unfold pyIn
  rw [String.data_append, String.data_append, List.append_assoc]
  exact containsSub_append_left pre.data pat.data post.data

theorem foldl_render_enumFrom (l : List AirbnbSearchResult) :
    ∀ (k : Nat) (acc : String),
      (List.enumFrom k l).foldl (fun acc p => acc ++ renderLine (p.1 + 1) p.2) acc
        = acc ++ renderFrom (k + 1) l := by
  induction l with
  | nil => intro k acc; simp [renderFrom]
  | cons r rs ih =>
    intro k acc
    simp only [List.enumFrom_cons, List.foldl]
    rw [ih (k + 1) (acc ++ renderLine (k + 1) r)]
    simp only [renderFrom]
    rw [String.append_assoc]

/-- C7: for every result sequence, `present_choices` produces the fixed
header followed by `renderFrom 1 (results.take 3)` — one line per entry of
the first at-most-3 results, in exactly the provider's order, each line
carrying its 1-based position, name, nightly price and rating — and at
most 3 entries are rendered. -/
theorem c7_renders_top3_in_order (results : List AirbnbSearchResult) :
    present_choices results =
      "Here are the top 3 Airbnb listings I found:\n\n" ++
        renderFrom 1 (results.take 3) ∧
    (results.take 3).length ≤ 3 := by
  constructor
  · exact foldl_render_enumFrom (results.take 3) 0
      "Here are the top 3 Airbnb listings I found:\n\n"
  · rw [List.length_take]
    exact Nat.min_le_left 3 results.length

/-- C8: whenever `create_calendar_event_node` produces a tool call, the
summary is exactly "Airbnb Booking: " followed by the chosen listing's
name (hence mentions the name), the start time is `date_from` followed by
the fixed default time "T09:00:00", the end time is `date_to` followed by
the different fixed default time "T11:00:00", the description mentions the
listing name, and the node's graph successor is unconditionally END. -/
theorem c8_calendar_call_shape (preferences : UserPreferences)
    (chosen : AirbnbSearchResult) (call : CalendarCall)
    (h : create_calendar_event_node preferences chosen = some call) :
    call.summary = "Airbnb Booking: " ++ chosen.name ∧
    pyIn chosen.name call.summary = true ∧
    (∃ df, preferences.date_from = some df ∧ call.start_time = df ++ "T09:00:00") ∧
    (∃ dt, preferences.date_to = some dt ∧ call.end_time = dt ++ "T11:00:00") ∧
    call.description = "Booking confirmation for " ++ chosen.name ++ "." ∧
    pyIn chosen.name call.description = true ∧
    ("T09:00:00" : String) ≠ "T11:00:00" ∧
    after_create_calendar_event = GraphNode.END := by
  unfold create_calendar_event_node at h
  cases hdf : preferences.date_from with
  | none => rw [hdf] at h; cases h
  | some df =>
    cases hdt : preferences.date_to with
    | none => rw [hdf, hdt] at h; cases h
    | some dt =>
      rw [hdf, hdt] at h
      injection h with h'
      subst h'
      refine ⟨rfl, pyIn_append_right _ _, ⟨df, rfl, rfl⟩, ⟨dt, rfl, rfl⟩,
        rfl, pyIn_append_mid _ _ _, by decide, rfl⟩

/-- C8 witness: the call built from `c8_prefs` and the first mock listing
is `c8_call`, which satisfies every conjunct of the claim. -/
theorem c8_calendar_call_shape_witness :
    c8_call.summary = "Airbnb Booking: " ++ mock_listing1.name ∧
    pyIn mock_listing1.name c8_call.summary = true ∧
    (∃ df, c8_prefs.date_from = some df ∧ c8_call.start_time = df ++ "T09:00:00") ∧
    (∃ dt, c8_prefs.date_to = some dt ∧ c8_call.end_time = dt ++ "T11:00:00") ∧
    c8_call.description = "Booking confirmation for " ++ mock_listing1.name ++ "." ∧
    pyIn mock_listing1.name c8_call.description = true ∧
    ("T09:00:00" : String) ≠ "T11:00:00" ∧
    after_create_calendar_event = GraphNode.END :=
  c8_calendar_call_shape c8_prefs mock_listing1 c8_call (by decide)

end AirbnbAgent
